import Mathlib

/-!
Verification development for the mbedtls ECDH module (`ecdh.h`) and the
Everest Curve25519 backend header (`Hacl_Curve25519.h`).

The repository ships the public header `ecdh.h` (data model, error codes,
enums, API contracts) while the implementation translation units are
external; operations are therefore modelled from the specification's
description of their behaviour, over the collaborator interfaces the spec
names (group arithmetic, RNG, big integers).  Bytes are modelled as `Nat`
values, byte strings as `List Nat`, machine integers as `Nat`/`Int`.
-/

/-- From `ecdh.h`: the ECDH bad-input error code, value `-0x001B`.  Its
doc comment in the header reads "Feature not available. For example,
variant or group is not available.", so the same code covers malformed
input and unsupported variant/group. -/
def MBEDTLS_ERR_ECDH_BAD_INPUT_DATA : Int := -0x001B

/-- From `ecdh.h`: the ECDH allocation-failure error code, value `-0x001D`.
Together with `MBEDTLS_ERR_ECDH_BAD_INPUT_DATA` these are the only two
module-specific error codes the header defines. -/
def MBEDTLS_ERR_ECDH_ALLOC_FAILED : Int := -0x001D

/-- Modelled from the spec: error code of the ECP collaborator reported
when the RNG/rejection-sampling step of key generation fails (the header
only promises "an MBEDTLS_ERR_ECP_XXX error code on failure"). -/
def MBEDTLS_ERR_ECP_RANDOM_FAILED : Int := -0x4D00

/-- Modelled from the spec: error code of the ECP collaborator reported
when a destination buffer is smaller than the output requires. -/
def MBEDTLS_ERR_ECP_BUFFER_TOO_SMALL : Int := -0x4F00

/-- From `ecdh.h`: group id value 0, the "no group" id a zero-initialized
context carries. -/
def MBEDTLS_ECP_DP_NONE : Nat := 0

/-- From the spec's wire table: the curve-type tag byte identifying the
named-curve point encoding in the server-params message. -/
def MBEDTLS_ECP_TLS_NAMED_CURVE : Nat := 3

/-- From `ecdh.h`: `MBEDTLS_ECDH_VARIANT_NONE = 0`, implementation not
defined (the value a zero-initialized context's `var` field holds). -/
def MBEDTLS_ECDH_VARIANT_NONE : Nat := 0

/-- From `ecdh.h`: `MBEDTLS_ECDH_VARIANT_MBED`, the default Mbed TLS
implementation, the enum value following `MBEDTLS_ECDH_VARIANT_NONE`. -/
def MBEDTLS_ECDH_VARIANT_MBED : Nat := 1

/-- From `ecdh.h`: the source of an imported EC key (`mbedtls_ecdh_side`):
our key, or the key of the peer. -/
inductive mbedtls_ecdh_side : Type where
  | MBEDTLS_ECDH_OURS : mbedtls_ecdh_side
  | MBEDTLS_ECDH_THEIRS : mbedtls_ecdh_side
deriving DecidableEq, Repr

/-- Little-endian byte decomposition of a natural number into `w` bytes. -/
def natToBytesLE : Nat → Nat → List Nat
  | 0, _ => []
  | w + 1, n => n % 256 :: natToBytesLE w (n / 256)

/-- Big-endian byte string of width `w` for a natural number, used when
exporting the shared secret as a fixed-width octet string. -/
def natToBytesBE (w n : Nat) : List Nat :=
  (natToBytesLE w n).reverse

/-- Little-endian interpretation of a byte string as a natural number. -/
def bytesToNatLE : List Nat → Nat
  | [] => 0
  | b :: rest => b % 256 + 256 * bytesToNatLE rest

/-- Modelled from the spec: the interface of the group-arithmetic
collaborator (`ecp.h`) that the ECDH core consumes — curve parameters
looked up by id, the base point, point validity check, identity test,
scalar multiplication, x-coordinate extraction and point (de)serialization
in the wire encoding.  `Pt` is the collaborator's point representation. -/
structure EcpGroup (Pt : Type) where
  /-- The named-curve registry identifier serialized on the wire. -/
  gid : Nat
  /-- The order of the base point. -/
  N : Nat
  /-- The canonical base point. -/
  G : Pt
  /-- The representation of the identity element (point at infinity). -/
  zeroPt : Pt
  /-- Scalar multiplication `d · Q`. -/
  smul : Nat → Pt → Pt
  /-- Curve-equation membership check. -/
  onCurve : Pt → Bool
  /-- Identity-element test. -/
  isZero : Pt → Bool
  /-- The x-coordinate of a point, as a big integer. -/
  getX : Pt → Nat
  /-- Serialize a point to its wire octets. -/
  writePoint : Pt → List Nat
  /-- Parse a point from wire octets. -/
  readPoint : List Nat → Option Pt
  /-- The byte width of the group (coordinate/secret size). -/
  nbBytes : Nat

/-- Modelled from the spec: the algebraic contract of a valid curve group
as assumed of the group-arithmetic collaborator — base-point multiples
commute (the Diffie-Hellman law), multiples of the base point by scalars
in `[1, N-1]` are valid non-identity curve points, scalar multiplication
only depends on the scalar modulo the group order (which makes blinding
by `+ b·N` sound), and point serialization round-trips. -/
structure EcpGroup.Valid {Pt : Type} (g : EcpGroup Pt) : Prop where
  smul_comm : ∀ a b : Nat, g.smul a (g.smul b g.G) = g.smul b (g.smul a g.G)
  smul_base_onCurve : ∀ d : Nat, 1 ≤ d → d ≤ g.N - 1 → g.onCurve (g.smul d g.G) = true
  smul_base_nonzero : ∀ d : Nat, 1 ≤ d → d ≤ g.N - 1 → g.isZero (g.smul d g.G) = false
  smul_mod_order : ∀ (d b : Nat) (Q : Pt), g.smul (d + b * g.N) Q = g.smul d Q
  read_write : ∀ Q : Pt, g.readPoint (g.writePoint Q) = some Q
  write_len_lt : ∀ Q : Pt, (g.writePoint Q).length < 256
  gid_lt : g.gid < 65536

/-- From `ecdh.h`: the sub-context used by the default (MBED) ECDH
implementation — the curve, the private key `d`, the public key `Q`, the
peer's public key `Qp`, the shared secret `z`, the blinding values
`Vi`/`Vf` and the previous private key `_d`. -/
structure mbedtls_ecdh_context_mbed (Pt : Type) where
  grp : EcpGroup Pt
  d : Nat
  Q : Pt
  Qp : Pt
  z : Nat
  Vi : Pt
  Vf : Pt
  _d : Nat

/-- From `ecdh.h` (non-legacy layout): the ECDH context — the point
format, the group id, the variant in use (as its numeric enum value), and
the implementation-specific sub-context, absent (null pointer) until a
variant is bound. -/
structure mbedtls_ecdh_context (Pt : Type) where
  point_format : Nat
  grp : Nat
  var : Nat
  ctx : Option (mbedtls_ecdh_context_mbed Pt)

/-- From `ecdh.h`: the EC key-pair structure imported by
`mbedtls_ecdh_get_params` — its curve (by id here), private scalar and
public point. -/
structure mbedtls_ecp_keypair (Pt : Type) where
  grp_id : Nat
  d : Nat
  Q : Pt

/-- Modelled from the spec: `init(ctx)` zero-initializes all fields — no
curve bound (`grp = 0`), variant value 0 (`MBEDTLS_ECDH_VARIANT_NONE`) and
no backend sub-context allocated. -/
def mbedtls_ecdh_init (Pt : Type) : mbedtls_ecdh_context Pt :=
  { point_format := 0
    grp := MBEDTLS_ECP_DP_NONE
    var := MBEDTLS_ECDH_VARIANT_NONE
    ctx := none }

/-- Modelled from the spec: the freshly allocated, zeroed MBED sub-context
that `setup` installs for a curve group `g`. -/
def ecdh_fresh_mbed {Pt : Type} (g : EcpGroup Pt) : mbedtls_ecdh_context_mbed Pt :=
  { grp := g, d := 0, Q := g.zeroPt, Qp := g.zeroPt, z := 0
    Vi := g.zeroPt, Vf := g.zeroPt, _d := 0 }

/-- Modelled from the spec: `setup(ctx, group_id)` binds the context to a
curve, selecting the default backend and allocating its sub-state; an
unrecognized group id is reported with the bad-input/feature-unavailable
code and the context is left unchanged.  The group-parameter lookup of the
collaborator is passed as `lookup`. -/
def mbedtls_ecdh_setup {Pt : Type} (ctx : mbedtls_ecdh_context Pt) (grp_id : Nat)
    (lookup : Nat → Option (EcpGroup Pt)) :
    Except Int Unit × mbedtls_ecdh_context Pt :=
  match lookup grp_id with
  | none => (.error MBEDTLS_ERR_ECDH_BAD_INPUT_DATA, ctx)
  | some g =>
    (.ok (), { point_format := ctx.point_format
               grp := grp_id
               var := MBEDTLS_ECDH_VARIANT_MBED
               ctx := some (ecdh_fresh_mbed g) })

/-- Modelled from the spec: the bound of the scalar rejection-sampling
loop in key generation, the only internal retry in the library. -/
def ECDH_SCALAR_RETRIES : Nat := 30

/-- Modelled from the spec: bounded rejection sampling of a private
scalar — draw a candidate from the RNG stream, accept it when it lies in
`[1, N-1]`, otherwise retry with the next draw, up to the fuel bound. -/
def ecdh_draw_scalar {Pt : Type} (g : EcpGroup Pt) (f_rng : Nat → Nat) :
    Nat → Nat → Option Nat
  | 0, _ => none
  | fuel + 1, i =>
    if 1 ≤ f_rng i ∧ f_rng i ≤ g.N - 1 then some (f_rng i)
    else ecdh_draw_scalar g f_rng fuel (i + 1)

/-- Modelled from the spec: `mbedtls_ecdh_gen_public` — draw a random
scalar in `[1, group_order − 1]` by bounded rejection sampling, then
compute the public point as that scalar times the base point via the
group collaborator.  The RNG is a stream of candidate draws. -/
def mbedtls_ecdh_gen_public {Pt : Type} (g : EcpGroup Pt) (f_rng : Nat → Nat) :
    Except Int (Nat × Pt) :=
  match ecdh_draw_scalar g f_rng ECDH_SCALAR_RETRIES 0 with
  | none => .error MBEDTLS_ERR_ECP_RANDOM_FAILED
  | some d => .ok (d, g.smul d g.G)

/-- Modelled from the spec: `mbedtls_ecdh_compute_shared`, instrumented
with a count of scalar multiplications performed.  The peer point is first
validated (on the curve and not the identity); an invalid peer is rejected
with a bad-input error before any multiplication (count 0).  With an RNG
present the scalar is blinded as `d + b·N` before multiplying; without an
RNG the unblinded multiplication is used.  The result is the x-coordinate
of the product, as a big integer. -/
def ecdh_compute_shared_count {Pt : Type} (g : EcpGroup Pt) (Q : Pt) (d : Nat)
    (f_rng : Option (Nat → Nat)) : Except Int Nat × Nat :=
  if g.isZero Q = true ∨ g.onCurve Q = false then
    (.error MBEDTLS_ERR_ECDH_BAD_INPUT_DATA, 0)
  else
    match f_rng with
    | none => (.ok (g.getX (g.smul d Q)), 1)
    | some r => (.ok (g.getX (g.smul (d + r 0 * g.N) Q)), 1)

/-- Modelled from the spec: `mbedtls_ecdh_compute_shared` — the result of
the instrumented computation. -/
def mbedtls_ecdh_compute_shared {Pt : Type} (g : EcpGroup Pt) (Q : Pt) (d : Nat)
    (f_rng : Option (Nat → Nat)) : Except Int Nat :=
  (ecdh_compute_shared_count g Q d f_rng).1

/-- The two big-endian bytes of a named-curve id on the wire. -/
def ecp_tls_id_bytes (gid : Nat) : List Nat :=
  [gid / 256 % 256, gid % 256]

/-- Modelled from the spec: `mbedtls_ecdh_get_params` — imports an
externally supplied key pair into the context, setting the own private
scalar and own public point when `side` is ours, or the peer public point
when `side` is theirs; fails with a bad-input error when the key's curve
does not match the context's group, or when no variant is bound. -/
def mbedtls_ecdh_get_params {Pt : Type} (ctx : mbedtls_ecdh_context Pt)
    (key : mbedtls_ecp_keypair Pt) (side : mbedtls_ecdh_side) :
    Except Int Unit × mbedtls_ecdh_context Pt :=
  if ctx.var = MBEDTLS_ECDH_VARIANT_MBED then
    match ctx.ctx with
    | none => (.error MBEDTLS_ERR_ECDH_BAD_INPUT_DATA, ctx)
    | some mc =>
      if key.grp_id = ctx.grp then
        match side with
        | .MBEDTLS_ECDH_OURS =>
          (.ok (), { ctx with ctx := some { mc with d := key.d, Q := key.Q } })
        | .MBEDTLS_ECDH_THEIRS =>
          (.ok (), { ctx with ctx := some { mc with Qp := key.Q } })
      else (.error MBEDTLS_ERR_ECDH_BAD_INPUT_DATA, ctx)
  else (.error MBEDTLS_ERR_ECDH_BAD_INPUT_DATA, ctx)

/-- Modelled from the spec: `mbedtls_ecdh_make_params` — generates the own
key pair, then writes the server-params message: curve-type byte 3, the
2-byte named-curve id, a 1-byte point length and the point octets.  Fails
with a buffer-too-small error if the destination is shorter than required,
and with a bad-input error on a context with no variant bound; on failure
the context is unchanged. -/
def mbedtls_ecdh_make_params {Pt : Type} (ctx : mbedtls_ecdh_context Pt)
    (f_rng : Nat → Nat) (blen : Nat) :
    Except Int (List Nat) × mbedtls_ecdh_context Pt :=
  if ctx.var = MBEDTLS_ECDH_VARIANT_MBED then
    match ctx.ctx with
    | none => (.error MBEDTLS_ERR_ECDH_BAD_INPUT_DATA, ctx)
    | some mc =>
      match mbedtls_ecdh_gen_public mc.grp f_rng with
      | .error e => (.error e, ctx)
      | .ok (d, Q) =>
        let pt := mc.grp.writePoint Q
        let out := MBEDTLS_ECP_TLS_NAMED_CURVE ::
          (ecp_tls_id_bytes mc.grp.gid ++ (pt.length :: pt))
        if out.length ≤ blen then
          (.ok out, { ctx with ctx := some { mc with d := d, Q := Q } })
        else (.error MBEDTLS_ERR_ECP_BUFFER_TOO_SMALL, ctx)
  else (.error MBEDTLS_ERR_ECDH_BAD_INPUT_DATA, ctx)

/-- Modelled from the spec: `mbedtls_ecdh_read_params` — parses the
server-params message (curve-type byte, 2-byte named-curve id, 1-byte
point length, point octets), validates the curve type, that the named
curve is a supported group, and that the declared point bytes are all
present and parse as a point; binds the context to the group and stores
the peer public point.  On any failure the first error is reported with
the bad-input code and the context is left unmutated.  Returns the rest
of the buffer after the consumed prefix. -/
def mbedtls_ecdh_read_params {Pt : Type} (lookup : Nat → Option (EcpGroup Pt))
    (ctx : mbedtls_ecdh_context Pt) (buf : List Nat) :
    Except Int (List Nat) × mbedtls_ecdh_context Pt :=
  match buf with
  | ct :: hi :: lo :: plen :: rest =>
    if ct = MBEDTLS_ECP_TLS_NAMED_CURVE then
      match lookup (hi * 256 + lo) with
      | none => (.error MBEDTLS_ERR_ECDH_BAD_INPUT_DATA, ctx)
      | some g =>
        if plen ≤ rest.length then
          match g.readPoint (rest.take plen) with
          | none => (.error MBEDTLS_ERR_ECDH_BAD_INPUT_DATA, ctx)
          | some Qp =>
            (.ok (rest.drop plen),
             { point_format := ctx.point_format
               grp := hi * 256 + lo
               var := MBEDTLS_ECDH_VARIANT_MBED
               ctx := some { ecdh_fresh_mbed g with Qp := Qp } })
        else (.error MBEDTLS_ERR_ECDH_BAD_INPUT_DATA, ctx)
    else (.error MBEDTLS_ERR_ECDH_BAD_INPUT_DATA, ctx)
  | _ => (.error MBEDTLS_ERR_ECDH_BAD_INPUT_DATA, ctx)

/-- Modelled from the spec: `mbedtls_ecdh_make_public` — generates the own
key pair and writes only the length-prefixed point octets of the
client-key-exchange message; errors mirror `mbedtls_ecdh_make_params`. -/
def mbedtls_ecdh_make_public {Pt : Type} (ctx : mbedtls_ecdh_context Pt)
    (f_rng : Nat → Nat) (blen : Nat) :
    Except Int (List Nat) × mbedtls_ecdh_context Pt :=
  if ctx.var = MBEDTLS_ECDH_VARIANT_MBED then
    match ctx.ctx with
    | none => (.error MBEDTLS_ERR_ECDH_BAD_INPUT_DATA, ctx)
    | some mc =>
      match mbedtls_ecdh_gen_public mc.grp f_rng with
      | .error e => (.error e, ctx)
      | .ok (d, Q) =>
        let pt := mc.grp.writePoint Q
        if pt.length + 1 ≤ blen then
          (.ok (pt.length :: pt), { ctx with ctx := some { mc with d := d, Q := Q } })
        else (.error MBEDTLS_ERR_ECP_BUFFER_TOO_SMALL, ctx)
  else (.error MBEDTLS_ERR_ECDH_BAD_INPUT_DATA, ctx)

/-- Modelled from the spec: `mbedtls_ecdh_read_public` — parses only the
length-prefixed point octets of the client-key-exchange message into the
peer public point; the whole buffer must be consumed; fails with a
bad-input error on malformed input or a context with no variant bound,
leaving the context unchanged. -/
def mbedtls_ecdh_read_public {Pt : Type} (ctx : mbedtls_ecdh_context Pt)
    (buf : List Nat) : Except Int Unit × mbedtls_ecdh_context Pt :=
  if ctx.var = MBEDTLS_ECDH_VARIANT_MBED then
    match ctx.ctx with
    | none => (.error MBEDTLS_ERR_ECDH_BAD_INPUT_DATA, ctx)
    | some mc =>
      match buf with
      | plen :: rest =>
        if rest.length = plen then
          match mc.grp.readPoint rest with
          | some Qp => (.ok (), { ctx with ctx := some { mc with Qp := Qp } })
          | none => (.error MBEDTLS_ERR_ECDH_BAD_INPUT_DATA, ctx)
        else (.error MBEDTLS_ERR_ECDH_BAD_INPUT_DATA, ctx)
      | [] => (.error MBEDTLS_ERR_ECDH_BAD_INPUT_DATA, ctx)
  else (.error MBEDTLS_ERR_ECDH_BAD_INPUT_DATA, ctx)

/-- Modelled from the spec: `mbedtls_ecdh_calc_secret` — derives the
shared secret from the stored private scalar and peer point via
`mbedtls_ecdh_compute_shared` and writes it as a big-endian byte string of
the group's byte width; fails if the destination buffer is too small or no
variant is bound, leaving the context unchanged on failure. -/
def mbedtls_ecdh_calc_secret {Pt : Type} (ctx : mbedtls_ecdh_context Pt)
    (f_rng : Option (Nat → Nat)) (blen : Nat) :
    Except Int (List Nat) × mbedtls_ecdh_context Pt :=
  if ctx.var = MBEDTLS_ECDH_VARIANT_MBED then
    match ctx.ctx with
    | none => (.error MBEDTLS_ERR_ECDH_BAD_INPUT_DATA, ctx)
    | some mc =>
      match mbedtls_ecdh_compute_shared mc.grp mc.Qp mc.d f_rng with
      | .error e => (.error e, ctx)
      | .ok z =>
        if mc.grp.nbBytes ≤ blen then
          (.ok (natToBytesBE mc.grp.nbBytes z),
           { ctx with ctx := some { mc with z := z } })
        else (.error MBEDTLS_ERR_ECP_BUFFER_TOO_SMALL, ctx)
  else (.error MBEDTLS_ERR_ECDH_BAD_INPUT_DATA, ctx)

/-- The Curve25519 field prime `2^255 - 19`. -/
def c25519_p : Nat := 2 ^ 255 - 19

/-- Fuel-bounded binary exponentiation modulo `c25519_p`, used for the
final field inversion of the Montgomery ladder. -/
def c25519_powAux (a n : Nat) : Nat → Nat
  | 0 => 1 % c25519_p
  | fuel + 1 =>
    if n = 0 then 1 % c25519_p
    else
      let h := c25519_powAux (a * a % c25519_p) (n / 2) fuel
      if n % 2 = 1 then h * a % c25519_p else h

/-- `a ^ n` modulo `c25519_p` (exponents below `2^256`). -/
def c25519_pow (a n : Nat) : Nat :=
  c25519_powAux a n 256

/-- Modelled from the spec: the branch-free X25519 Montgomery ladder over
the field `GF(2^255 - 19)` (RFC 7748): 255 ladder steps driven by the
scalar bits with conditional swaps, followed by the final field inversion
`x2 · z2^(p-2)`.  Total over all inputs: every field operation is defined
for every operand, and no validation of the input point is performed. -/
def c25519_ladder (k u : Nat) : Nat :=
  let p := c25519_p
  let x1 := u % p
  let step := fun (st : Nat × Nat × Nat × Nat) (t : Nat) =>
    let kt := k / 2 ^ t % 2
    let x2 := if kt = 1 then st.2.2.1 else st.1
    let x3 := if kt = 1 then st.1 else st.2.2.1
    let z2 := if kt = 1 then st.2.2.2 else st.2.1
    let z3 := if kt = 1 then st.2.1 else st.2.2.2
    let A := (x2 + z2) % p
    let AA := A * A % p
    let B := (x2 + p - z2 % p) % p
    let BB := B * B % p
    let E := (AA + p - BB % p) % p
    let C := (x3 + z3) % p
    let D := (x3 + p - z3 % p) % p
    let DA := D * A % p
    let CB := C * B % p
    let S := (DA + CB) % p
    let x3n := S * S % p
    let T := (DA + p - CB % p) % p
    let z3n := x1 * (T * T % p) % p
    let x2n := AA * BB % p
    let z2n := E * ((AA + 121665 * E) % p) % p
    if kt = 1 then (x3n, z3n, x2n, z2n) else (x2n, z2n, x3n, z3n)
  let fin := (List.range 255).reverse.foldl step (1, 0, x1, 1)
  fin.1 * c25519_pow fin.2.1 (c25519_p - 2) % c25519_p

/-- Modelled from the spec: X25519 scalar decoding with the curve's
mandated bit-clamping — clear the three low bits, clear every bit from
bit 254 up, then set bit 254. -/
def c25519_decodeScalar (k : List Nat) : Nat :=
  bytesToNatLE k % 2 ^ 254 / 8 * 8 + 2 ^ 254

/-- Modelled from the spec: X25519 u-coordinate decoding — little-endian
with the top bit of the final byte masked off. -/
def c25519_decodeU (u : List Nat) : Nat :=
  bytesToNatLE u % 2 ^ 255

/-- Modelled from the spec and the `Hacl_Curve25519.h` declaration: the
Everest constant-time scalar multiplication.  The C function returns
`void` — it cannot report an error — so the model is a total function:
every peer input is decoded, run through the fixed-time ladder with no
point-validation step, and re-encoded as 32 output bytes. -/
def Hacl_Curve25519_crypto_scalarmult (secret basepoint : List Nat) : List Nat :=
  natToBytesLE 32 (c25519_ladder (c25519_decodeScalar secret) (c25519_decodeU basepoint))

/-- A concrete instance of the group-collaborator interface used to
exercise the operations on explicit inputs: the cyclic group of order 5
with points represented as residues, base point 1, scalar multiplication
`d · Q = d * Q mod 5`, wire encoding as a single octet. -/
def cyclic5 : EcpGroup Nat :=
  { gid := 23
    N := 5
    G := 1
    zeroPt := 0
    smul := fun d Q => d * Q % 5
    onCurve := fun Q => decide (Q < 5)
    isZero := fun Q => decide (Q % 5 = 0)
    getX := fun Q => Q
    writePoint := fun Q => [Q]
    readPoint := fun l => match l with | [q] => some q | _ => none
    nbBytes := 1 }

/-- A concrete curve-parameter lookup recognizing only `cyclic5`'s id. -/
def lookup5 : Nat → Option (EcpGroup Nat) :=
  fun i => if i = 23 then some cyclic5 else none

/-- A concrete context set up for `cyclic5`, for exercising operations. -/
def ctx5 : mbedtls_ecdh_context Nat :=
  (mbedtls_ecdh_setup (mbedtls_ecdh_init Nat) 23 lookup5).2

theorem natToBytesLE_length : ∀ w n : Nat, (natToBytesLE w n).length = w := by
  intro w
  induction w with
  | zero => intro n; rfl
  | succ k ih => intro n; simp [natToBytesLE, ih]

theorem ecdh_draw_scalar_range {Pt : Type} (g : EcpGroup Pt) (f_rng : Nat → Nat) :
    ∀ fuel i c : Nat, ecdh_draw_scalar g f_rng fuel i = some c →
      1 ≤ c ∧ c ≤ g.N - 1 := by
  intro fuel
  induction fuel with
  | zero => intro i c h; simp [ecdh_draw_scalar] at h
  | succ k ih =>
    intro i c h
    by_cases hc : 1 ≤ f_rng i ∧ f_rng i ≤ g.N - 1
    · simp only [ecdh_draw_scalar, if_pos hc] at h
      obtain rfl := Option.some.inj h
      exact hc
    · simp only [ecdh_draw_scalar, if_neg hc] at h
      exact ih (i + 1) c h

theorem mbedtls_ecdh_gen_public_spec {Pt : Type} (g : EcpGroup Pt) (f_rng : Nat → Nat)
    (d : Nat) (Q : Pt) (h : mbedtls_ecdh_gen_public g f_rng = .ok (d, Q)) :
    (1 ≤ d ∧ d ≤ g.N - 1) ∧ Q = g.smul d g.G := by
  unfold mbedtls_ecdh_gen_public at h
  cases hd : ecdh_draw_scalar g f_rng ECDH_SCALAR_RETRIES 0 with
  | none => rw [hd] at h; exact absurd h (by simp)
  | some c =>
    rw [hd] at h
    simp only [Except.ok.injEq, Prod.mk.injEq] at h
    obtain ⟨h1, h2⟩ := h
    subst h1
    exact ⟨ecdh_draw_scalar_range g f_rng _ _ _ hd, h2.symm⟩

theorem ecdh_compute_shared_eval {Pt : Type} (g : EcpGroup Pt) (hv : g.Valid)
    (Q : Pt) (d : Nat) (f_rng : Option (Nat → Nat))
    (hz : g.isZero Q = false) (hc : g.onCurve Q = true) :
    mbedtls_ecdh_compute_shared g Q d f_rng = .ok (g.getX (g.smul d Q)) := by
  unfold mbedtls_ecdh_compute_shared ecdh_compute_shared_count
  have hcond : ¬ (g.isZero Q = true ∨ g.onCurve Q = false) := by simp [hz, hc]
  rw [if_neg hcond]
  cases f_rng with
  | none => rfl
  | some r =>
    show Except.ok (g.getX (g.smul (d + r 0 * g.N) Q)) = _
    rw [hv.smul_mod_order d (r 0) Q]

theorem cyclic5_mul_mod (a b : Nat) : a * (b % 5) % 5 = a * b % 5 := by
  have h := Nat.ModEq.mul_left a (Nat.mod_modEq b 5)
  exact h

theorem cyclic5_valid : cyclic5.Valid := by
  refine ⟨?_, ?_, ?_, ?_, ?_, ?_, ?_⟩
  · intro a b
    show a * (b * 1 % 5) % 5 = b * (a * 1 % 5) % 5
    rw [Nat.mul_one, Nat.mul_one, cyclic5_mul_mod, cyclic5_mul_mod, Nat.mul_comm]
  · intro d h1 h2
    show decide (d * 1 % 5 < 5) = true
    exact decide_eq_true (Nat.mod_lt _ (by omega))
  · intro d h1 h2
    have h2' : d ≤ 4 := h2
    show decide (d * 1 % 5 % 5 = 0) = false
    exact decide_eq_false (by omega)
  · intro d b Q
    show (d + b * 5) * Q % 5 = d * Q % 5
    have h : (d + b * 5) * Q = d * Q + b * Q * 5 := by ring
    rw [h, Nat.add_mul_mod_self_right]
  · intro Q; rfl
  · intro Q
    show (1 : Nat) < 256
    decide
  · show (23 : Nat) < 65536
    decide

/-- Claim C1: for every valid curve group and every two key pairs
`(dA, QA)` and `(dB, QB)` each produced by `mbedtls_ecdh_gen_public` on
that group, `mbedtls_ecdh_compute_shared` on `(QB, dA)` and on `(QA, dB)`
both succeed (with or without an RNG) and return the same shared-secret
value. -/
theorem claim_C1_agreement {Pt : Type} (g : EcpGroup Pt) (hv : g.Valid)
    (rngA rngB : Nat → Nat) (oA oB : Option (Nat → Nat))
    (dA dB : Nat) (QA QB : Pt)
    (hA : mbedtls_ecdh_gen_public g rngA = .ok (dA, QA))
    (hB : mbedtls_ecdh_gen_public g rngB = .ok (dB, QB)) :
    ∃ z, mbedtls_ecdh_compute_shared g QB dA oA = .ok z ∧
         mbedtls_ecdh_compute_shared g QA dB oB = .ok z := by
  obtain ⟨⟨h1A, h2A⟩, hQA⟩ := mbedtls_ecdh_gen_public_spec g rngA dA QA hA
  obtain ⟨⟨h1B, h2B⟩, hQB⟩ := mbedtls_ecdh_gen_public_spec g rngB dB QB hB
  subst hQA; subst hQB
  refine ⟨g.getX (g.smul dA (g.smul dB g.G)), ?_, ?_⟩
  · exact ecdh_compute_shared_eval g hv _ dA oA (hv.smul_base_nonzero dB h1B h2B)
      (hv.smul_base_onCurve dB h1B h2B)
  · rw [ecdh_compute_shared_eval g hv _ dB oB (hv.smul_base_nonzero dA h1A h2A)
      (hv.smul_base_onCurve dA h1A h2A)]
    rw [hv.smul_comm dB dA]

/-- Witness for C1: the order-5 group, key pairs `(2, 2)` and `(3, 3)`,
one side unblinded, the other blinded. -/
theorem claim_C1_agreement_witness :
    ∃ z, mbedtls_ecdh_compute_shared cyclic5 3 2 none = .ok z ∧
         mbedtls_ecdh_compute_shared cyclic5 2 3 (some (fun _ => 1)) = .ok z :=
  claim_C1_agreement cyclic5 cyclic5_valid (fun _ => 2) (fun _ => 3) none
    (some (fun _ => 1)) 2 3 2 3 rfl rfl

/-- Claim C2: for every valid group, fixed private scalar and valid peer
point, `mbedtls_ecdh_compute_shared` with an RNG supplied (blinded path)
and with the RNG omitted (unblinded path) return the identical
shared-secret value, and both succeed. -/
theorem claim_C2_blinding_neutrality {Pt : Type} (g : EcpGroup Pt) (hv : g.Valid)
    (d : Nat) (Q : Pt) (r : Nat → Nat)
    (hz : g.isZero Q = false) (hc : g.onCurve Q = true) :
    mbedtls_ecdh_compute_shared g Q d (some r) =
      mbedtls_ecdh_compute_shared g Q d none ∧
    ∃ z, mbedtls_ecdh_compute_shared g Q d none = .ok z := by
  rw [ecdh_compute_shared_eval g hv Q d (some r) hz hc,
    ecdh_compute_shared_eval g hv Q d none hz hc]
  exact ⟨rfl, _, rfl⟩

/-- Witness for C2: the order-5 group, scalar 7, peer point 2, blinding
draw 9. -/
theorem claim_C2_blinding_neutrality_witness :
    mbedtls_ecdh_compute_shared cyclic5 2 7 (some (fun _ => 9)) =
      mbedtls_ecdh_compute_shared cyclic5 2 7 none ∧
    ∃ z, mbedtls_ecdh_compute_shared cyclic5 2 7 none = .ok z :=
  claim_C2_blinding_neutrality cyclic5 cyclic5_valid 7 2 (fun _ => 9) rfl rfl

/-- Claim C3: a peer point that is the identity element or fails the curve
equation is rejected by `mbedtls_ecdh_compute_shared` with the bad-input
error, and the number of scalar multiplications performed before the
rejection is zero. -/
theorem claim_C3_invalid_peer_rejected {Pt : Type} (g : EcpGroup Pt) (Q : Pt)
    (d : Nat) (f_rng : Option (Nat → Nat))
    (h : g.isZero Q = true ∨ g.onCurve Q = false) :
    ecdh_compute_shared_count g Q d f_rng =
      (.error MBEDTLS_ERR_ECDH_BAD_INPUT_DATA, 0) := by
  unfold ecdh_compute_shared_count
  rw [if_pos h]

/-- Witness for C3: the identity element of the order-5 group is rejected
with no multiplication performed. -/
theorem claim_C3_invalid_peer_rejected_witness :
    ecdh_compute_shared_count cyclic5 0 3 none =
      (.error MBEDTLS_ERR_ECDH_BAD_INPUT_DATA, 0) :=
  claim_C3_invalid_peer_rejected cyclic5 0 3 none (Or.inl rfl)

/-- Claim C7: whenever `mbedtls_ecdh_gen_public` succeeds, the returned
private scalar lies in `[1, group_order − 1]` (out-of-range draws having
been rejected by the bounded rejection-sampling loop) and the returned
public point is that scalar times the group's base point. -/
theorem claim_C7_gen_public_range {Pt : Type} (g : EcpGroup Pt) (f_rng : Nat → Nat)
    (d : Nat) (Q : Pt) (h : mbedtls_ecdh_gen_public g f_rng = .ok (d, Q)) :
    1 ≤ d ∧ d ≤ g.N - 1 ∧ Q = g.smul d g.G := by
  obtain ⟨⟨h1, h2⟩, h3⟩ := mbedtls_ecdh_gen_public_spec g f_rng d Q h
  exact ⟨h1, h2, h3⟩

/-- Witness for C7: an RNG stream whose first draw 0 is out of range and
gets rejected; the retry accepts the draw 1. -/
theorem claim_C7_gen_public_range_witness :
    1 ≤ 1 ∧ 1 ≤ cyclic5.N - 1 ∧ (1 : Nat) = cyclic5.smul 1 cyclic5.G :=
  claim_C7_gen_public_range cyclic5 (fun i => i) 1 1 rfl

/-- Claim C8: the specialized constant-time Curve25519 backend is total
over its input domain — `Hacl_Curve25519_crypto_scalarmult` (whose C
declaration returns `void`, so no error can be reported) processes every
32-byte secret and peer input, with no point-validation step, to a
32-byte result. -/
theorem claim_C8_curve25519_total (secret basepoint : List Nat)
    (hs : secret.length = 32) (hb : basepoint.length = 32) :
    (Hacl_Curve25519_crypto_scalarmult secret basepoint).length = 32 := by
  unfold Hacl_Curve25519_crypto_scalarmult
  exact natToBytesLE_length 32 _

/-- Witness for C8: the all-zero peer input (the encoding of the identity
point, which the generic backend would reject) is processed. -/
theorem claim_C8_curve25519_total_witness :
    (Hacl_Curve25519_crypto_scalarmult (List.replicate 32 1)
      (List.replicate 32 0)).length = 32 :=
  claim_C8_curve25519_total (List.replicate 32 1) (List.replicate 32 0) rfl rfl

theorem mbedtls_ecdh_read_params_wellformed {Pt : Type} (g : EcpGroup Pt)
    (hv : g.Valid) (lookup : Nat → Option (EcpGroup Pt))
    (hlook : lookup g.gid = some g) (ctx : mbedtls_ecdh_context Pt) (Q : Pt) :
    mbedtls_ecdh_read_params lookup ctx
      (MBEDTLS_ECP_TLS_NAMED_CURVE ::
        (ecp_tls_id_bytes g.gid ++ ((g.writePoint Q).length :: g.writePoint Q))) =
      (.ok [],
       { point_format := ctx.point_format
         grp := g.gid
         var := MBEDTLS_ECDH_VARIANT_MBED
         ctx := some { ecdh_fresh_mbed g with Qp := Q } }) := by
  have hgid : g.gid / 256 % 256 * 256 + g.gid % 256 = g.gid := by
    have := hv.gid_lt; omega
  simp only [ecp_tls_id_bytes, List.cons_append, List.nil_append,
    mbedtls_ecdh_read_params, hgid, hlook, le_refl, if_true, List.take_length,
    List.drop_length, hv.read_write Q]

theorem mbedtls_ecdh_make_params_ok {Pt : Type} (ctx : mbedtls_ecdh_context Pt)
    (mc : mbedtls_ecdh_context_mbed Pt) (f_rng : Nat → Nat) (blen : Nat)
    (out : List Nat) (hvar : ctx.var = MBEDTLS_ECDH_VARIANT_MBED)
    (hmc : ctx.ctx = some mc)
    (hmk : (mbedtls_ecdh_make_params ctx f_rng blen).1 = .ok out) :
    ∃ d Q, mbedtls_ecdh_gen_public mc.grp f_rng = .ok (d, Q) ∧
      out = MBEDTLS_ECP_TLS_NAMED_CURVE ::
        (ecp_tls_id_bytes mc.grp.gid ++
          ((mc.grp.writePoint Q).length :: mc.grp.writePoint Q)) ∧
      (mbedtls_ecdh_make_params ctx f_rng blen).2.ctx =
        some { mc with d := d, Q := Q } := by
  cases hgen : mbedtls_ecdh_gen_public mc.grp f_rng with
  | error e =>
    exfalso
    have heval : (mbedtls_ecdh_make_params ctx f_rng blen).1 = .error e := by
      unfold mbedtls_ecdh_make_params
      simp only [hvar, reduceIte, hmc, hgen]
    rw [heval] at hmk
    exact absurd hmk (by simp)
  | ok p =>
    obtain ⟨d, Q⟩ := p
    by_cases hlen : (MBEDTLS_ECP_TLS_NAMED_CURVE ::
        (ecp_tls_id_bytes mc.grp.gid ++
          ((mc.grp.writePoint Q).length :: mc.grp.writePoint Q))).length ≤ blen
    · have heval : mbedtls_ecdh_make_params ctx f_rng blen =
          (.ok (MBEDTLS_ECP_TLS_NAMED_CURVE ::
            (ecp_tls_id_bytes mc.grp.gid ++
              ((mc.grp.writePoint Q).length :: mc.grp.writePoint Q))),
           { ctx with ctx := some { mc with d := d, Q := Q } }) := by
        unfold mbedtls_ecdh_make_params
        simp only [hvar, reduceIte, hmc, hgen, if_pos hlen]
      rw [heval] at hmk
      obtain rfl := (Except.ok.inj hmk).symm
      exact ⟨d, Q, rfl, rfl, by rw [heval]⟩
    · exfalso
      have heval : (mbedtls_ecdh_make_params ctx f_rng blen).1 =
          .error MBEDTLS_ERR_ECP_BUFFER_TOO_SMALL := by
        unfold mbedtls_ecdh_make_params
        simp only [hvar, reduceIte, hmc, hgen, if_neg hlen]
      rw [heval] at hmk
      exact absurd hmk (by simp)

/-- Claim C4: whenever `mbedtls_ecdh_make_params` succeeds, feeding the
bytes it wrote to `mbedtls_ecdh_read_params` (on a fresh context, with a
lookup resolving the written curve id) succeeds, consumes the whole
message, and reproduces in the reading context the same named-curve
identifier and the same public-point bytes that were serialized. -/
theorem claim_C4_params_roundtrip {Pt : Type} (ctx : mbedtls_ecdh_context Pt)
    (mc : mbedtls_ecdh_context_mbed Pt) (hv : mc.grp.Valid)
    (lookup : Nat → Option (EcpGroup Pt)) (hlook : lookup mc.grp.gid = some mc.grp)
    (hvar : ctx.var = MBEDTLS_ECDH_VARIANT_MBED) (hmc : ctx.ctx = some mc)
    (f_rng : Nat → Nat) (blen : Nat) (out : List Nat)
    (hmk : (mbedtls_ecdh_make_params ctx f_rng blen).1 = .ok out) :
    ∃ mc1 mc2,
      (mbedtls_ecdh_make_params ctx f_rng blen).2.ctx = some mc1 ∧
      (mbedtls_ecdh_read_params lookup (mbedtls_ecdh_init Pt) out).1 = .ok [] ∧
      (mbedtls_ecdh_read_params lookup (mbedtls_ecdh_init Pt) out).2.grp = mc.grp.gid ∧
      (mbedtls_ecdh_read_params lookup (mbedtls_ecdh_init Pt) out).2.ctx = some mc2 ∧
      mc2.Qp = mc1.Q ∧
      mc.grp.writePoint mc2.Qp = mc.grp.writePoint mc1.Q := by
  obtain ⟨d, Q, hgen, hout, hctx⟩ :=
    mbedtls_ecdh_make_params_ok ctx mc f_rng blen out hvar hmc hmk
  subst hout
  refine ⟨{ mc with d := d, Q := Q }, { ecdh_fresh_mbed mc.grp with Qp := Q },
    hctx, ?_, ?_, ?_, rfl, rfl⟩
  · rw [mbedtls_ecdh_read_params_wellformed mc.grp hv lookup hlook
      (mbedtls_ecdh_init Pt) Q]
  · rw [mbedtls_ecdh_read_params_wellformed mc.grp hv lookup hlook
      (mbedtls_ecdh_init Pt) Q]
  · rw [mbedtls_ecdh_read_params_wellformed mc.grp hv lookup hlook
      (mbedtls_ecdh_init Pt) Q]

/-- Witness for C4: a set-up context on the order-5 group, RNG draw 3;
the written message `[3, 0, 23, 1, 3]` parses back to curve id 23 and the
same point byte. -/
theorem claim_C4_params_roundtrip_witness :
    ∃ mc1 mc2,
      (mbedtls_ecdh_make_params ctx5 (fun _ => 3) 64).2.ctx = some mc1 ∧
      (mbedtls_ecdh_read_params lookup5 (mbedtls_ecdh_init Nat)
        [3, 0, 23, 1, 3]).1 = .ok [] ∧
      (mbedtls_ecdh_read_params lookup5 (mbedtls_ecdh_init Nat)
        [3, 0, 23, 1, 3]).2.grp = (ecdh_fresh_mbed cyclic5).grp.gid ∧
      (mbedtls_ecdh_read_params lookup5 (mbedtls_ecdh_init Nat)
        [3, 0, 23, 1, 3]).2.ctx = some mc2 ∧
      mc2.Qp = mc1.Q ∧
      (ecdh_fresh_mbed cyclic5).grp.writePoint mc2.Qp =
        (ecdh_fresh_mbed cyclic5).grp.writePoint mc1.Q :=
  claim_C4_params_roundtrip ctx5 (ecdh_fresh_mbed cyclic5) cyclic5_valid
    lookup5 rfl rfl rfl (fun _ => 3) 64 [3, 0, 23, 1, 3] rfl

/-- Claim C5: on a set-up context, `mbedtls_ecdh_get_params` with a key of
the matching curve sets the own private scalar and own public point from
the key when the side is ours, sets the peer public point from the key
when the side is theirs, and fails on a key whose curve does not match
the context's group. -/
theorem claim_C5_get_params {Pt : Type} (ctx : mbedtls_ecdh_context Pt)
    (mc : mbedtls_ecdh_context_mbed Pt) (key key2 : mbedtls_ecp_keypair Pt)
    (hvar : ctx.var = MBEDTLS_ECDH_VARIANT_MBED) (hmc : ctx.ctx = some mc)
    (hmatch : key.grp_id = ctx.grp) (hmis : key2.grp_id ≠ ctx.grp) :
    ((mbedtls_ecdh_get_params ctx key .MBEDTLS_ECDH_OURS).1 = .ok () ∧
     (mbedtls_ecdh_get_params ctx key .MBEDTLS_ECDH_OURS).2.ctx =
       some { mc with d := key.d, Q := key.Q }) ∧
    ((mbedtls_ecdh_get_params ctx key .MBEDTLS_ECDH_THEIRS).1 = .ok () ∧
     (mbedtls_ecdh_get_params ctx key .MBEDTLS_ECDH_THEIRS).2.ctx =
       some { mc with Qp := key.Q }) ∧
    ((mbedtls_ecdh_get_params ctx key2 .MBEDTLS_ECDH_OURS).1 =
       .error MBEDTLS_ERR_ECDH_BAD_INPUT_DATA ∧
     (mbedtls_ecdh_get_params ctx key2 .MBEDTLS_ECDH_THEIRS).1 =
       .error MBEDTLS_ERR_ECDH_BAD_INPUT_DATA) := by
  unfold mbedtls_ecdh_get_params
  simp [hvar, hmc, hmatch, hmis]

/-- Witness for C5: the set-up order-5 context, a matching key on curve
id 23 and a mismatched key on curve id 9. -/
theorem claim_C5_get_params_witness :
    ((mbedtls_ecdh_get_params ctx5 ⟨23, 4, 2⟩ .MBEDTLS_ECDH_OURS).1 = .ok () ∧
     (mbedtls_ecdh_get_params ctx5 ⟨23, 4, 2⟩ .MBEDTLS_ECDH_OURS).2.ctx =
       some { ecdh_fresh_mbed cyclic5 with d := 4, Q := 2 }) ∧
    ((mbedtls_ecdh_get_params ctx5 ⟨23, 4, 2⟩ .MBEDTLS_ECDH_THEIRS).1 = .ok () ∧
     (mbedtls_ecdh_get_params ctx5 ⟨23, 4, 2⟩ .MBEDTLS_ECDH_THEIRS).2.ctx =
       some { ecdh_fresh_mbed cyclic5 with Qp := 2 }) ∧
    ((mbedtls_ecdh_get_params ctx5 ⟨9, 4, 2⟩ .MBEDTLS_ECDH_OURS).1 =
       .error MBEDTLS_ERR_ECDH_BAD_INPUT_DATA ∧
     (mbedtls_ecdh_get_params ctx5 ⟨9, 4, 2⟩ .MBEDTLS_ECDH_THEIRS).1 =
       .error MBEDTLS_ERR_ECDH_BAD_INPUT_DATA) :=
  claim_C5_get_params ctx5 (ecdh_fresh_mbed cyclic5) ⟨23, 4, 2⟩ ⟨9, 4, 2⟩
    rfl rfl rfl (by decide)

/-- Claim C6: `mbedtls_ecdh_read_params` on a buffer whose body is
shorter than the point length its own header declares fails with the
bad-input error and returns the context exactly as it was before the
call — in particular the peer-public-point field is unchanged. -/
theorem claim_C6_read_params_truncated {Pt : Type}
    (lookup : Nat → Option (EcpGroup Pt)) (ctx : mbedtls_ecdh_context Pt)
    (g : EcpGroup Pt) (hi lo plen : Nat) (rest : List Nat)
    (hlook : lookup (hi * 256 + lo) = some g) (htrunc : rest.length < plen) :
    mbedtls_ecdh_read_params lookup ctx
      (MBEDTLS_ECP_TLS_NAMED_CURVE :: hi :: lo :: plen :: rest) =
      (.error MBEDTLS_ERR_ECDH_BAD_INPUT_DATA, ctx) := by
  simp only [mbedtls_ecdh_read_params, hlook, if_true, reduceIte]
  rw [if_neg (by omega)]

/-- Witness for C6: a message declaring a 4-byte point but carrying only
1 byte (3 bytes short) is rejected and the fresh context is returned
unchanged. -/
theorem claim_C6_read_params_truncated_witness :
    mbedtls_ecdh_read_params lookup5 (mbedtls_ecdh_init Nat)
      (MBEDTLS_ECP_TLS_NAMED_CURVE :: 0 :: 23 :: 4 :: [7]) =
      (.error MBEDTLS_ERR_ECDH_BAD_INPUT_DATA, mbedtls_ecdh_init Nat) :=
  claim_C6_read_params_truncated lookup5 (mbedtls_ecdh_init Nat) cyclic5
    0 23 4 [7] rfl (by decide)

/-- Claim C9: `MBEDTLS_ECDH_VARIANT_NONE` has value 0, a context produced
by `mbedtls_ecdh_init` (zero-initialization) has its variant field equal
to `MBEDTLS_ECDH_VARIANT_NONE` and no backend sub-context bound, a failed
setup leaves the context unchanged, and every key operation on a context
whose variant is still `MBEDTLS_ECDH_VARIANT_NONE` detects the never-set-up
state and fails with the bad-input error. -/
theorem claim_C9_variant_none_detect (Pt : Type) (ctx : mbedtls_ecdh_context Pt)
    (hvar : ctx.var = MBEDTLS_ECDH_VARIANT_NONE)
    (gid blen : Nat) (lookup : Nat → Option (EcpGroup Pt)) (hlook : lookup gid = none)
    (f_rng : Nat → Nat) (o : Option (Nat → Nat)) (buf : List Nat)
    (key : mbedtls_ecp_keypair Pt) (side : mbedtls_ecdh_side) :
    MBEDTLS_ECDH_VARIANT_NONE = 0 ∧
    (mbedtls_ecdh_init Pt).var = MBEDTLS_ECDH_VARIANT_NONE ∧
    (mbedtls_ecdh_init Pt).ctx = none ∧
    mbedtls_ecdh_setup ctx gid lookup = (.error MBEDTLS_ERR_ECDH_BAD_INPUT_DATA, ctx) ∧
    (mbedtls_ecdh_make_params ctx f_rng blen).1 = .error MBEDTLS_ERR_ECDH_BAD_INPUT_DATA ∧
    (mbedtls_ecdh_make_public ctx f_rng blen).1 = .error MBEDTLS_ERR_ECDH_BAD_INPUT_DATA ∧
    (mbedtls_ecdh_read_public ctx buf).1 = .error MBEDTLS_ERR_ECDH_BAD_INPUT_DATA ∧
    (mbedtls_ecdh_calc_secret ctx o blen).1 = .error MBEDTLS_ERR_ECDH_BAD_INPUT_DATA ∧
    (mbedtls_ecdh_get_params ctx key side).1 = .error MBEDTLS_ERR_ECDH_BAD_INPUT_DATA := by
  have hne : ¬ (ctx.var = MBEDTLS_ECDH_VARIANT_MBED) := by rw [hvar]; decide
  refine ⟨rfl, rfl, rfl, ?_, ?_, ?_, ?_, ?_, ?_⟩
  · unfold mbedtls_ecdh_setup
    rw [hlook]
  · unfold mbedtls_ecdh_make_params
    rw [if_neg hne]
  · unfold mbedtls_ecdh_make_public
    rw [if_neg hne]
  · unfold mbedtls_ecdh_read_public
    rw [if_neg hne]
  · unfold mbedtls_ecdh_calc_secret
    rw [if_neg hne]
  · unfold mbedtls_ecdh_get_params
    rw [if_neg hne]

/-- Witness for C9: the freshly initialized context itself. -/
theorem claim_C9_variant_none_detect_witness :
    MBEDTLS_ECDH_VARIANT_NONE = 0 ∧
    (mbedtls_ecdh_init Nat).var = MBEDTLS_ECDH_VARIANT_NONE ∧
    (mbedtls_ecdh_init Nat).ctx = none ∧
    mbedtls_ecdh_setup (mbedtls_ecdh_init Nat) 99 (fun _ => none) =
      (.error MBEDTLS_ERR_ECDH_BAD_INPUT_DATA, mbedtls_ecdh_init Nat) ∧
    (mbedtls_ecdh_make_params (mbedtls_ecdh_init Nat) (fun _ => 0) 64).1 =
      .error MBEDTLS_ERR_ECDH_BAD_INPUT_DATA ∧
    (mbedtls_ecdh_make_public (mbedtls_ecdh_init Nat) (fun _ => 0) 64).1 =
      .error MBEDTLS_ERR_ECDH_BAD_INPUT_DATA ∧
    (mbedtls_ecdh_read_public (mbedtls_ecdh_init Nat) []).1 =
      .error MBEDTLS_ERR_ECDH_BAD_INPUT_DATA ∧
    (mbedtls_ecdh_calc_secret (mbedtls_ecdh_init Nat) none 64).1 =
      .error MBEDTLS_ERR_ECDH_BAD_INPUT_DATA ∧
    (mbedtls_ecdh_get_params (mbedtls_ecdh_init Nat) ⟨0, 0, 0⟩
      .MBEDTLS_ECDH_OURS).1 = .error MBEDTLS_ERR_ECDH_BAD_INPUT_DATA :=
  claim_C9_variant_none_detect Nat (mbedtls_ecdh_init Nat) rfl 99 64
    (fun _ => none) rfl (fun _ => 0) none [] ⟨0, 0, 0⟩ .MBEDTLS_ECDH_OURS

/-- Claim C10: the ECDH interface defines exactly the two module error
codes `-0x001B` (bad input, also documented as feature-not-available) and
`-0x001D` (allocation failure); an unsupported-curve failure of `setup`
and a malformed-input failure of `compute_shared` are both reported
through the same bad-input code, indistinguishable from that code alone. -/
theorem claim_C10_error_codes {Pt : Type} (lookup : Nat → Option (EcpGroup Pt))
    (gid : Nat) (ctx : mbedtls_ecdh_context Pt) (g : EcpGroup Pt) (Q : Pt)
    (d : Nat) (o : Option (Nat → Nat))
    (hun : lookup gid = none) (hbad : g.isZero Q = true) :
    MBEDTLS_ERR_ECDH_BAD_INPUT_DATA = -0x001B ∧
    MBEDTLS_ERR_ECDH_ALLOC_FAILED = -0x001D ∧
    MBEDTLS_ERR_ECDH_BAD_INPUT_DATA ≠ MBEDTLS_ERR_ECDH_ALLOC_FAILED ∧
    (mbedtls_ecdh_setup ctx gid lookup).1 = .error MBEDTLS_ERR_ECDH_BAD_INPUT_DATA ∧
    mbedtls_ecdh_compute_shared g Q d o = .error MBEDTLS_ERR_ECDH_BAD_INPUT_DATA := by
  refine ⟨rfl, rfl, by decide, ?_, ?_⟩
  · unfold mbedtls_ecdh_setup
    rw [hun]
  · unfold mbedtls_ecdh_compute_shared ecdh_compute_shared_count
    rw [if_pos (Or.inl hbad)]

/-- Witness for C10: an unknown curve id and the identity peer point both
yield the one bad-input code. -/
theorem claim_C10_error_codes_witness :
    MBEDTLS_ERR_ECDH_BAD_INPUT_DATA = -0x001B ∧
    MBEDTLS_ERR_ECDH_ALLOC_FAILED = -0x001D ∧
    MBEDTLS_ERR_ECDH_BAD_INPUT_DATA ≠ MBEDTLS_ERR_ECDH_ALLOC_FAILED ∧
    (mbedtls_ecdh_setup (mbedtls_ecdh_init Nat) 99 (fun _ => none)).1 =
      .error MBEDTLS_ERR_ECDH_BAD_INPUT_DATA ∧
    mbedtls_ecdh_compute_shared cyclic5 0 1 none =
      .error MBEDTLS_ERR_ECDH_BAD_INPUT_DATA :=
  claim_C10_error_codes (fun _ => none) 99 (mbedtls_ecdh_init Nat) cyclic5
    0 1 none rfl rfl
